import Mathlib

/-!
# Verification of the InChristAI interaction core

A shallow embedding, in Lean, of the coordination core of the InChristAI
Twitter bot: the duplicate-suppression ledger, the mention/keyword triage
pipeline, the reply/post composers with their length ceilings, the mood
coercion step, the stale-record purge, and the advisory read-call counter.

Text is modelled as a list of characters (`Str`), matching Python string
semantics at the code-point level.  Database tables are modelled as lists of
rows; timestamps are integers (seconds).  External collaborators (the
language-model client, the feed platform, the verse API) enter as explicit
function or value parameters, so every embedded operation is a pure,
executable Lean function.
-/

namespace InChristAI

/-- Text at the Python code-point level. -/
abbrev Str := List Char

/-- The double-quote character (written by code to avoid literal-escaping). -/
def dq : Char := Char.ofNat 34

/-- The single-quote character. -/
def sq : Char := Char.ofNat 39

/-- Python `s.strip(chars)` / `s.lstrip + rstrip` over an explicit character
set: drop members of `cs` from both ends. -/
def stripChars (cs : List Char) (s : Str) : Str :=
  ((s.dropWhile (· ∈ cs)).reverse.dropWhile (· ∈ cs)).reverse

/-- Python `s.rstrip(chars)`: drop members of `cs` from the right end. -/
def rstripChars (cs : List Char) (s : Str) : Str :=
  (s.reverse.dropWhile (· ∈ cs)).reverse

/-- ASCII whitespace, for Python `str.strip()` with no argument. -/
def wsChars : List Char := [' ', '\t', '\n', '\r']

/-- Python `str.strip()` (whitespace strip), as used on tweet ids. -/
def stripWs (s : Str) : Str := stripChars wsChars s

/-- Python `str.lower()` (ASCII level). -/
def toLowerStr (s : Str) : Str := s.map Char.toLower

/-- Python `str.upper()` (ASCII level). -/
def toUpperStr (s : Str) : Str := s.map Char.toUpper

/-- Python `needle in hay` substring test. -/
def containsSub (needle hay : Str) : Bool :=
  hay.tails.any (fun t => needle.isPrefixOf t)

/-- The quote set `'"\''` stripped by `_format_response`. -/
def quoteChars : List Char := [dq, sq]

/-- The three-character ellipsis `"..."` appended on truncation. -/
def ellipsis : Str := ['.', '.', '.']

/-- Python `response.split('. ')`: split on the exact two-character
separator, scanning left to right. -/
def splitDotSpace : Str → List Str
  | [] => [[]]
  | '.' :: ' ' :: rest => [] :: splitDotSpace rest
  | c :: rest =>
    match splitDotSpace rest with
    | [] => [[c]]
    | h :: t => (c :: h) :: t

/-- The greedy sentence-accumulation loop of `_format_response`
(`ai_responses.py`): keep adding `sentence + '. '` while the result stays
within `cap` (which the caller sets to `max_response_length - 3`), stopping
at the first sentence that does not fit. -/
def buildTruncated (cap : Nat) : List Str → Str → Str
  | [], acc => acc
  | s :: rest, acc =>
    if (acc ++ s ++ ['.', ' ']).length ≤ cap then
      buildTruncated cap rest (acc ++ s ++ ['.', ' '])
    else acc

/-- `AIResponseGenerator._format_response` (`ai_responses.py` lines 203-224):
strip wrapping quotes; if the result exceeds `maxLen`, truncate at sentence
boundaries when possible, otherwise hard-cut at `maxLen - 3`, appending an
ellipsis in either case. -/
def formatResponse (maxLen : Nat) (response : Str) : Str :=
  let r := stripChars quoteChars response
  if r.length > maxLen then
    let sentences := splitDotSpace r
    let truncated := buildTruncated (maxLen - 3) sentences []
    if truncated ≠ [] then
      rstripChars ['.', ' '] truncated ++ ellipsis
    else
      r.take (maxLen - 3) ++ ellipsis
  else r

/-- The tweet-length guard inside `_ai_generate_response`
(`ai_responses.py` lines 673-684): strip quotes, hard-truncate to 277
characters plus an ellipsis when over 280. -/
def aiGenerateResponseFormat (raw : Str) : Str :=
  let g := stripChars quoteChars raw
  if 280 < g.length then g.take 277 ++ ellipsis else g

/-- `DailyPoster._format_verse_only_tweet` (`daily_poster.py` lines 127-152):
try three templates in order, then a verse-truncation fallback computed from
`280 - len('"\n\n{reference} ({version})')`, then reference-only. -/
def formatVerseOnlyTweet (reference text version : Str) : Str :=
  let tail : Str := [dq, '\n', '\n'] ++ reference ++ [' ', '('] ++ version ++ [')']
  let opt1 : Str := [dq] ++ text ++ tail
  let opt2 : Str := opt1 ++ ('\n' :: '\n' :: ("#BibleVerse #Faith".toList))
  let opt3 : Str := [dq] ++ text ++ [dq, '\n', '\n', '-', ' '] ++ reference ++ [' ', '('] ++ version ++ [')']
  if opt1.length ≤ 280 then opt1
  else if opt2.length ≤ 280 then opt2
  else if opt3.length ≤ 280 then opt3
  else
    let maxTextLength : Int := 280 - (([dq, '\n', '\n'] ++ reference ++ [' ', '('] ++ version ++ [')']).length : Int)
    if maxTextLength > 50 then
      let truncatedText := text.take (maxTextLength - 3).toNat ++ ellipsis
      [dq] ++ truncatedText ++ tail
    else
      reference ++ [' ', '('] ++ version ++ [')']

/-! ## Data model: database tables and feed items -/

/-- One row of the `interactions` table (`database.py` `init_tables`):
`tweet_id` is the unique key, `response_text`/`response_tweet_id`/
`responded_at` are nullable, `status` defaults to `'pending'`. -/
structure InteractionRow where
  tweetId : Str
  userId : Str
  mentionText : Str
  responseText : Option Str
  responseTweetId : Option Str
  createdAt : Int
  respondedAt : Option Int
  status : Str
deriving DecidableEq

/-- One row of the `users` table: `user_id` key, `last_interaction`,
`interaction_count`. -/
structure UserRow where
  userId : Str
  lastInteraction : Int
  interactionCount : Nat
deriving DecidableEq

/-- The durable state the interaction handler reads and writes. -/
structure DbState where
  interactions : List InteractionRow
  users : List UserRow
deriving DecidableEq

/-- A mention / search hit as the handler receives it from the feed API. -/
structure Mention where
  id : Str
  text : Str
  authorId : Str
  createdAt : Int
deriving DecidableEq

/-- The `'pending'` status literal. -/
def sPending : Str := "pending".toList

/-- The `'completed'` status literal. -/
def sCompleted : Str := "completed".toList

/-- The decline sentinel `"NO_REPLY"`. -/
def noReplyStr : Str := "NO_REPLY".toList

/-- `InteractionHandler.response_cooldown` (60 seconds). -/
def responseCooldown : Int := 60

/-- `InteractionHandler.max_responses_per_hour` (30). -/
def maxResponsesPerHour : Nat := 30

/-- `InteractionHandler.blocked_words`. -/
def blockedWords : List Str :=
  ["spam".toList, "bot".toList, "fake".toList, "scam".toList]

/-! ## DeliveryLedger operations (`interaction_handler.py`, `database.py`) -/

/-- `InteractionHandler._has_responded_to_tweet` (lines 350-432): look up the
row whose `tweet_id` equals the stripped id; report handled exactly when that
row's `response_tweet_id` is non-null and non-empty after `str(...).strip()`.
(The `status` column is read but not used in the decision.) -/
def hasRespondedToTweet (db : DbState) (tweetId : Str) : Bool :=
  let tid := stripWs tweetId
  match db.interactions.find? (fun r => decide (r.tweetId = tid)) with
  | some r =>
    match r.responseTweetId with
    | some rid => decide (stripWs rid ≠ [])
    | none => false
  | none => false

/-- The spec's `hasHandled` predicate, written from the spec's words for
comparison with `hasRespondedToTweet`: "returns true iff a record exists for
`itemId` with a non-null `outcomeText` OR `status=completed`". -/
def specHasHandled (db : DbState) (tweetId : Str) : Bool :=
  db.interactions.any
    (fun r => decide (r.tweetId = stripWs tweetId ∧
      (r.responseText ≠ none ∨ r.status = sCompleted)))

/-- `InChristAI._has_responded_to_tweet_db_only` (`main.py` lines 297-314):
row lookup by raw id, handled iff `response_tweet_id` is non-null. -/
def hasRespondedToTweetDbOnly (db : DbState) (tweetId : Str) : Bool :=
  match db.interactions.find? (fun r => decide (r.tweetId = tweetId)) with
  | some r => r.responseTweetId.isSome
  | none => false

/-- The `users` upsert shared by `_store_interaction` and
`_record_interaction`: set `last_interaction` to now and bump
`interaction_count`, inserting a fresh row with count 1 when absent. -/
def upsertUser (users : List UserRow) (uid : Str) (now : Int) : List UserRow :=
  if users.any (fun u => decide (u.userId = uid)) then
    users.map (fun u =>
      if u.userId = uid then
        { u with lastInteraction := now, interactionCount := u.interactionCount + 1 }
      else u)
  else
    users ++ [{ userId := uid, lastInteraction := now, interactionCount := 1 }]

/-- `InteractionHandler._store_interaction` (lines 221-264): upsert the
`interactions` row keyed by the stripped tweet id (updating `user_id`,
`mention_text` and `created_at`, leaving response fields and status alone;
inserting a fresh `pending` row otherwise), then upsert the author's
`users` row. -/
def storeInteraction (db : DbState) (now : Int) (m : Mention) : DbState :=
  let tid := stripWs m.id
  let uid := stripWs m.authorId
  let interactions :=
    if db.interactions.any (fun r => decide (r.tweetId = tid)) then
      db.interactions.map (fun r =>
        if r.tweetId = tid then
          { r with userId := uid, mentionText := m.text, createdAt := m.createdAt }
        else r)
    else
      db.interactions ++
        [{ tweetId := tid, userId := uid, mentionText := m.text,
           responseText := none, responseTweetId := none,
           createdAt := m.createdAt, respondedAt := none, status := sPending }]
  { interactions := interactions, users := upsertUser db.users m.authorId now }

/-- `InteractionHandler._update_interaction_response` (lines 266-284): set
`response_text`, `response_tweet_id` (stripped, or null when falsy),
`responded_at` and `status='completed'` on the row keyed by the stripped
mention id. -/
def updateInteractionResponse (db : DbState) (now : Int) (mentionId : Str)
    (responseText : Str) (replyTweetId : Option Str) : DbState :=
  let tid := stripWs mentionId
  let rid := match replyTweetId with
    | some l => if l = [] then none else some (stripWs l)
    | none => none
  { db with interactions := db.interactions.map (fun r =>
      if r.tweetId = tid then
        { r with responseText := some responseText, responseTweetId := rid,
                 respondedAt := some now, status := sCompleted }
      else r) }

/-- `InteractionHandler._record_interaction` (lines 286-348): one-shot upsert
of a `completed` row carrying both the inbound tweet and the posted reply,
plus the author's `users` upsert. -/
def recordInteraction (db : DbState) (now : Int) (m : Mention)
    (responseText : Str) (replyTweetId : Str) : DbState :=
  let tid := stripWs m.id
  let uid := stripWs m.authorId
  let rid := if replyTweetId = [] then none else some (stripWs replyTweetId)
  let interactions :=
    if db.interactions.any (fun r => decide (r.tweetId = tid)) then
      db.interactions.map (fun r =>
        if r.tweetId = tid then
          { r with userId := uid, mentionText := m.text,
                   responseText := some responseText, responseTweetId := rid,
                   respondedAt := some now, status := sCompleted }
        else r)
    else
      db.interactions ++
        [{ tweetId := tid, userId := uid, mentionText := m.text,
           responseText := some responseText, responseTweetId := rid,
           createdAt := now, respondedAt := some now, status := sCompleted }]
  { interactions := interactions, users := upsertUser db.users uid now }

/-- `DatabaseManager.cleanup_old_data` (`database.py` lines 289-310): delete
exactly the `interactions` rows with `created_at` older than `days` days
and `status = 'pending'`. -/
def cleanupOldData (db : DbState) (now : Int) (days : Nat) : DbState :=
  { db with interactions := db.interactions.filter (fun r =>
      !(decide (r.createdAt < now - (days : Int) * 86400) && decide (r.status = sPending))) }

/-! ## Triage eligibility (`interaction_handler.py`) -/

/-- A timestamp value as the storage driver materializes it in Python: an
ISO string (as the earlier SQLite layer returned, parsing cleanly) or a
`datetime` object (as psycopg2 returns for TIMESTAMP columns). -/
inductive PyTimestamp where
  | isoString (t : Int)
  | pyDatetime (t : Int)
deriving DecidableEq

/-- `datetime.fromisoformat`: parses a string; raises `TypeError` on any
non-string argument, in particular on a `datetime` object. -/
def fromisoformat : PyTimestamp → Except Unit Int
  | .isoString t => .ok t
  | .pyDatetime _ => .error ()

/-- How the storage layer hands back the `last_interaction` TIMESTAMP
column: `DatabaseManager` (`database.py` lines 15-35) rejects every
non-PostgreSQL URL, and psycopg2's cursor returns TIMESTAMP columns as
`datetime` objects. -/
def psycopgTimestamp (t : Int) : PyTimestamp := .pyDatetime t

/-- `InteractionHandler._is_user_rate_limited` (lines 434-455): look up the
author's `users` row and compare `now - datetime.fromisoformat(last_interaction)`
against `response_cooldown`; no row means not limited, and any exception —
including the `TypeError` that `fromisoformat` raises on the `datetime`
object the Postgres-only storage layer returns — is caught by the helper's
handler and yields `False`. -/
def isUserRateLimited (db : DbState) (now : Int) (userId : Str) : Bool :=
  match db.users.find? (fun u => decide (u.userId = userId)) with
  | some u =>
    match fromisoformat (psycopgTimestamp u.lastInteraction) with
    | .ok t => decide (now - t < responseCooldown)
    | .error _ => false
  | none => false

/-- The rolling count behind `_hourly_response_limit_reached` (lines
457-477): `completed` rows with `responded_at > now - 1h`. -/
def hourlyResponseCount (db : DbState) (now : Int) : Nat :=
  (db.interactions.filter (fun r =>
    (match r.respondedAt with
     | some t => decide (now - 3600 < t)
     | none => false)
    && decide (r.status = sCompleted))).length

/-- `InteractionHandler._hourly_response_limit_reached`: the cap is reached
when the rolling count is at least `max_responses_per_hour`. -/
def hourlyResponseLimitReached (db : DbState) (now : Int) : Bool :=
  decide (maxResponsesPerHour ≤ hourlyResponseCount db now)

/-- `InteractionHandler._should_respond_to_mention` (lines 97-130): refuse
own tweets, already-handled tweets, blocked words, authors in cooldown, and
an exhausted hourly cap, in that order. -/
def shouldRespondToMention (botUserId : Str) (db : DbState) (now : Int)
    (m : Mention) : Bool :=
  if m.authorId = botUserId then false
  else if hasRespondedToTweet db m.id then false
  else if blockedWords.any (fun w => containsSub w (toLowerStr m.text)) then false
  else if isUserRateLimited db now m.authorId then false
  else if hourlyResponseLimitReached db now then false
  else true

/-! ### The eligibility check with explicit storage-query outcomes

For the error-handling claim, each database read performed inside the
eligibility check is modelled as an `Except` value: `Except.error` is the
query raising, `Except.ok` its result set. -/

/-- The outcomes of the three storage reads made during one eligibility
check. -/
structure EligibilityIO where
  dupQuery : Except Unit (Option InteractionRow)
  userQuery : Except Unit (Option UserRow)
  hourlyQuery : Except Unit Nat

/-- `_has_responded_to_tweet` with the query outcome explicit: its own
`try/except` turns a raising query into `False`. -/
def hasRespondedToTweetE (q : Except Unit (Option InteractionRow)) : Bool :=
  match q with
  | .error _ => false
  | .ok none => false
  | .ok (some r) =>
    match r.responseTweetId with
    | some rid => decide (stripWs rid ≠ [])
    | none => false

/-- `_is_user_rate_limited` with the query outcome explicit: its own
`try/except` turns a raising query into `False` (not limited). -/
def isUserRateLimitedE (now : Int) (q : Except Unit (Option UserRow)) : Bool :=
  match q with
  | .error _ => false
  | .ok none => false
  | .ok (some u) => decide (now - u.lastInteraction < responseCooldown)

/-- `_hourly_response_limit_reached` with the count-query outcome explicit:
its own `try/except` turns a raising query into `False` (cap not reached). -/
def hourlyResponseLimitReachedE (q : Except Unit Nat) : Bool :=
  match q with
  | .error _ => false
  | .ok n => decide (maxResponsesPerHour ≤ n)

/-- `_should_respond_to_mention` over explicit query outcomes. -/
def shouldRespondToMentionE (botUserId : Str) (now : Int) (m : Mention)
    (io : EligibilityIO) : Bool :=
  if m.authorId = botUserId then false
  else if hasRespondedToTweetE io.dupQuery then false
  else if blockedWords.any (fun w => containsSub w (toLowerStr m.text)) then false
  else if isUserRateLimitedE now io.userQuery then false
  else if hourlyResponseLimitReachedE io.hourlyQuery then false
  else true

/-- The outer `try/except` of `_should_respond_to_mention`: an exception
raised directly in the check's own body (after the helpers' internal
handlers) is caught there and yields `False`. -/
def shouldRespondToMentionChecked (botUserId : Str) (now : Int) (m : Mention)
    (body : Except Unit EligibilityIO) : Bool :=
  match body with
  | .error _ => false
  | .ok io => shouldRespondToMentionE botUserId now m io

/-! ## The mention-processing cycle (`process_mentions`) -/

/-- The external collaborators one cycle consults: the text-generation
service (raw completion per mention) and the feed platform's reply
endpoint (posted reply id, or `none` on failure). -/
structure Collab where
  generate : Mention → Str
  replyId : Mention → Option Str

/-- `InteractionHandler._process_single_mention` (lines 132-180) on its
non-raising paths: store the interaction, format the collaborator's
completion (`generate_response` via `_format_response` with ceiling
`maxLen`), decline on an empty response, record a `completed` row with
outcome `"NO_REPLY"` and null reply id when the (stripped, upper-cased)
response is the sentinel, otherwise post the reply and record it.  Returns
(success flag, new state, posted reply id). -/
def processSingleMention (maxLen : Nat) (collab : Collab) (db : DbState)
    (now : Int) (m : Mention) : Bool × DbState × Option Str :=
  let db1 := storeInteraction db now m
  let response := formatResponse maxLen (collab.generate m)
  if response = [] then (false, db1, none)
  else if toUpperStr (stripWs response) = noReplyStr then
    (true, updateInteractionResponse db1 now m.id noReplyStr none, none)
  else
    match collab.replyId m with
    | some rid => (true, updateInteractionResponse db1 now m.id response (some rid), some rid)
    | none => (false, db1, none)

/-- What one `process_mentions` cycle produced. -/
structure CycleOutcome where
  processedCount : Nat
  repliesPosted : Nat
  finalState : DbState

/-- `InteractionHandler.process_mentions` (lines 35-95): filter the fetched
batch down to mentions not yet handled (checked against the cycle's initial
state), then, for each in order, re-check eligibility against the current
state and process it, counting successes and posted replies. -/
def processMentions (maxLen : Nat) (collab : Collab) (botUserId : Str)
    (db0 : DbState) (now : Int) (batch : List Mention) : CycleOutcome :=
  let unprocessed := batch.filter (fun m => !(hasRespondedToTweet db0 m.id))
  let step := fun (acc : Nat × Nat × DbState) (m : Mention) =>
    let (cnt, rep, db) := acc
    if shouldRespondToMention botUserId db now m then
      let (ok, db', posted) := processSingleMention maxLen collab db now m
      (if ok then cnt + 1 else cnt, if posted.isSome then rep + 1 else rep, db')
    else (cnt, rep, db)
  let (cnt, rep, db) := unprocessed.foldl step (0, 0, db0)
  ⟨cnt, rep, db⟩

/-! ## The keyword-search pipeline (`select_and_respond_to_tweet`,
`_search_and_respond_to_prayers`) -/

/-- A verse returned by the content-lookup collaborator. -/
structure Verse where
  reference : Str
  text : Str
  version : Str
deriving DecidableEq

/-- `BibleAPI.get_available_moods` (`bible_api.py` lines 238-243). -/
def availableMoods : List Str :=
  ["afraid".toList, "anxious".toList, "lonely".toList, "sad".toList,
   "angry".toList, "confused".toList, "discouraged".toList, "guilty".toList,
   "stressed".toList, "hopeless".toList, "grateful".toList, "jealous".toList]

/-- The default mood label `'sad'`. -/
def sSad : Str := "sad".toList

/-- `AIResponseGenerator._ai_determine_mood` (`ai_responses.py` lines
566-630): `aiMood` is the classifier's `detected_mood` field (`none` for a
malformed/failed response or a missing field).  A label outside
`availableMoods` — and any failure — is coerced to `'sad'`. -/
def aiDetermineMood (aiMood : Option Str) : Str :=
  match aiMood with
  | none => sSad
  | some m => if m ∈ availableMoods then m else sSad

/-- `AIResponseGenerator._ai_select_best_tweet` (lines 480-564): `aiChoice`
is the parsed `selected_tweet_id` (`none` for a "none suitable" answer or a
malformed response); the selection is the first batch item with that id. -/
def aiSelectBestTweet (tweets : List Mention) (aiChoice : Option Str) :
    Option Mention :=
  match aiChoice with
  | some tid => tweets.find? (fun t => decide (t.id = tid))
  | none => none

/-- `AIResponseGenerator.select_and_respond_to_tweet` (lines 332-389) on its
non-raising path: pick at most one tweet, coerce the mood, require a verse
and a non-empty response text, yielding at most one
(tweet, mood, verse, response) result. -/
def selectAndRespondToTweet (tweets : List Mention) (aiChoice aiMood : Option Str)
    (verse : Option Verse) (responseText : Str) :
    Option (Mention × Str × Verse × Str) :=
  if tweets = [] then none
  else
    match aiSelectBestTweet tweets aiChoice with
    | none => none
    | some t =>
      let mood := aiDetermineMood aiMood
      match verse with
      | none => none
      | some v => if responseText = [] then none else some (t, mood, v, responseText)

/-- `InChristAI._search_and_respond_to_prayers` (`main.py` lines 226-295) on
its non-raising path: run the selection pipeline, skip already-handled
tweets (database-only check), honour dry-run, and post plus record at most
one reply.  Returns (replies posted, new state). -/
def searchAndRespondToPrayers (db : DbState) (now : Int) (tweets : List Mention)
    (aiChoice aiMood : Option Str) (verse : Option Verse) (responseText : Str)
    (replyId : Option Str) (dryRun : Bool) : Nat × DbState :=
  if tweets = [] then (0, db)
  else
    match selectAndRespondToTweet tweets aiChoice aiMood verse responseText with
    | none => (0, db)
    | some (t, _, _, rtxt) =>
      if hasRespondedToTweetDbOnly db t.id then (0, db)
      else if dryRun then (0, db)
      else
        match replyId with
        | some rid => (1, recordInteraction db now t rtxt rid)
        | none => (0, db)

/-! ## The advisory read-call counter (`twitter_api.py`) -/

/-- `TwitterAPI._read_call_limit` (100 calls/month, free tier). -/
def readCallLimit : Nat := 100

/-- One operation touching the feed API or local storage, as executed by the
program.  Each `get_mentions`/`search_tweets` call is tagged by the HTTP
outcome it saw: `Ok` (status 200), `RateLimited` (429, empty result),
`HttpError k` (another status: the direct call completed, then the tweepy
fallback made `k` further uncounted remote reads), `RequestRaised k` (the
HTTP request itself raised before the counting line — those two call sites
count after the response — then the tweepy fallback made `k` uncounted
remote reads).  `getOriginalTweet` and `conversationSearch` are the two
counted calls inside `get_thread_context`; unlike the previous two, those
call sites increment the counter BEFORE issuing `requests.get`
(`twitter_api.py` lines 641-645 and 572-576), so each has a
`RequestRaised` variant in which the request raises after the counter has
already been bumped. -/
inductive ReadOp where
  | getMentionsOk
  | getMentionsRateLimited
  | getMentionsHttpError (tweepyCalls : Nat)
  | getMentionsRequestRaised (tweepyCalls : Nat)
  | searchTweetsOk
  | searchTweetsRateLimited
  | searchTweetsHttpError
  | searchTweetsRequestRaised
  | getOriginalTweet
  | getOriginalTweetRequestRaised
  | conversationSearch
  | conversationSearchRequestRaised
  | localDbCheck
  | snapshotRead
deriving DecidableEq

/-- The increment `TwitterAPI._read_call_count += 1` that each operation
performs: `get_mentions`/`search_tweets` count once per completed
direct-HTTP request (nothing when the request itself raises), while
`get_original_tweet` and the conversation search count before the request
is issued (so they count even when it raises); the tweepy fallback and
local/database work never touch the counter. -/
def counterDelta : ReadOp → Nat
  | .getMentionsOk => 1
  | .getMentionsRateLimited => 1
  | .getMentionsHttpError _ => 1
  | .getMentionsRequestRaised _ => 0
  | .searchTweetsOk => 1
  | .searchTweetsRateLimited => 1
  | .searchTweetsHttpError => 1
  | .searchTweetsRequestRaised => 0
  | .getOriginalTweet => 1
  | .getOriginalTweetRequestRaised => 1
  | .conversationSearch => 1
  | .conversationSearchRequestRaised => 1
  | .localDbCheck => 0
  | .snapshotRead => 0

/-- How many direct-HTTP read requests the operation completes (a response
received; a raising request completes none). -/
def directHttpReads : ReadOp → Nat
  | .getMentionsOk => 1
  | .getMentionsRateLimited => 1
  | .getMentionsHttpError _ => 1
  | .getMentionsRequestRaised _ => 0
  | .searchTweetsOk => 1
  | .searchTweetsRateLimited => 1
  | .searchTweetsHttpError => 1
  | .searchTweetsRequestRaised => 0
  | .getOriginalTweet => 1
  | .getOriginalTweetRequestRaised => 0
  | .conversationSearch => 1
  | .conversationSearchRequestRaised => 0
  | .localDbCheck => 0
  | .snapshotRead => 0

/-- Whether the operation's direct-HTTP request raised instead of
completing. -/
def requestRaised : ReadOp → Bool
  | .getMentionsRequestRaised _ => true
  | .searchTweetsRequestRaised => true
  | .getOriginalTweetRequestRaised => true
  | .conversationSearchRequestRaised => true
  | _ => false

/-- Total remote read calls the operation performs against the feed API,
counting the uncounted tweepy-fallback reads of `get_mentions_tweepy`. -/
def remoteReads : ReadOp → Nat
  | .getMentionsOk => 1
  | .getMentionsRateLimited => 1
  | .getMentionsHttpError k => 1 + k
  | .getMentionsRequestRaised k => k
  | .searchTweetsOk => 1
  | .searchTweetsRateLimited => 1
  | .searchTweetsHttpError => 1
  | .searchTweetsRequestRaised => 0
  | .getOriginalTweet => 1
  | .getOriginalTweetRequestRaised => 0
  | .conversationSearch => 1
  | .conversationSearchRequestRaised => 0
  | .localDbCheck => 0
  | .snapshotRead => 0

/-- The counter after executing one operation. -/
def applyReadOp (c : Nat) (op : ReadOp) : Nat := c + counterDelta op

/-- The counter after executing a trace of operations in order. -/
def runReadOps (c : Nat) (ops : List ReadOp) : Nat := ops.foldl applyReadOp c

/-- The snapshot `TwitterAPI.get_read_call_count` (lines 701-709): count,
limit, `remaining = limit - count`, and the percentage used
`(count / limit) * 100` (the code additionally rounds the displayed float
to one decimal). -/
structure ReadCallStats where
  count : Nat
  limit : Nat
  remaining : Int
  percentageUsed : ℚ
deriving DecidableEq

/-- Build the snapshot from the current counter value. -/
def getReadCallCount (c : Nat) : ReadCallStats :=
  { count := c, limit := readCallLimit,
    remaining := (readCallLimit : Int) - (c : Int),
    percentageUsed := ((c : ℚ) / (readCallLimit : ℚ)) * 100 }

/-- The outcome check used by the NO_REPLY claim: the ledger holds at least
one row keyed by the (stripped) mention id, and every such row is
`completed` with outcome text `NO_REPLY`, a null `response_tweet_id`, and
`responded_at` set. -/
def recordedNoReplyOutcome (db : DbState) (now : Int) (mentionId : Str) : Bool :=
  let rows := db.interactions.filter (fun r => decide (r.tweetId = stripWs mentionId))
  !rows.isEmpty &&
    rows.all (fun r =>
      decide (r.responseText = some noReplyStr) &&
      decide (r.responseTweetId = none) &&
      decide (r.status = sCompleted) &&
      decide (r.respondedAt = some now))

/-! ## Concrete instances used by witnesses and counterexamples -/

/-- A ledger row completed with the `NO_REPLY` outcome: `status='completed'`,
`response_text='NO_REPLY'`, `response_tweet_id` null. -/
def c1Row : InteractionRow :=
  { tweetId := "T1".toList, userId := "A1".toList, mentionText := "hello".toList,
    responseText := some noReplyStr, responseTweetId := none,
    createdAt := 0, respondedAt := some 0, status := sCompleted }

/-- A ledger whose only row is the completed `NO_REPLY` row for `"T1"`. -/
def c1Db : DbState := { interactions := [c1Row], users := [] }

/-- A ledger row completed with a posted reply id `"R9"`. -/
def c1RowReplied : InteractionRow :=
  { tweetId := "T2".toList, userId := "A1".toList, mentionText := "hello".toList,
    responseText := some ("God bless".toList), responseTweetId := some ("R9".toList),
    createdAt := 0, respondedAt := some 0, status := sCompleted }

/-- A ledger whose only row is the replied-to row for `"T2"`. -/
def c1DbReplied : DbState := { interactions := [c1RowReplied], users := [] }

/-- A fresh mention of the already-replied-to tweet `"T2"`. -/
def c1MentionT2 : Mention :=
  { id := "T2".toList, text := "hello again".toList, authorId := "A1".toList, createdAt := 5 }

/-- A benign mention from author `"A1"`. -/
def c2M1 : Mention :=
  { id := "T1".toList, text := "please pray for me".toList,
    authorId := "A1".toList, createdAt := 0 }

/-- A benign mention from a second author `"A2"`. -/
def c2M2 : Mention :=
  { id := "T2".toList, text := "I need prayer today".toList,
    authorId := "A2".toList, createdAt := 0 }

/-- Collaborators that always produce a reply text and a posted reply id. -/
def c2Collab : Collab :=
  { generate := fun _ => "God loves you".toList,
    replyId := fun m => some ('R' :: m.id) }

/-- Collaborators whose text generation always declines with the sentinel. -/
def c3Collab : Collab :=
  { generate := fun _ => noReplyStr,
    replyId := fun m => some ('R' :: m.id) }

/-- The reference used in the scheduled-post counterexample. -/
def c4Reference : Str := "John 3:16".toList

/-- A 262-character verse text (long enough to force the truncation
fallback of `_format_verse_only_tweet`). -/
def c4Text : Str := List.replicate 262 'a'

/-- The version tag used in the scheduled-post counterexample. -/
def c4Version : Str := "ESV".toList

/-- A `users` row for author `"A1"` last interacted with at `t = 9990`. -/
def c6User : UserRow :=
  { userId := "A1".toList, lastInteraction := 9990, interactionCount := 3 }

/-- State containing only the `c6User` profile. -/
def c6Db : DbState := { interactions := [], users := [c6User] }

/-- Thirty distinct `completed` rows all answered at `t = 10000`. -/
def c7Rows : List InteractionRow :=
  (List.range 30).map (fun i =>
    { tweetId := ['R', Char.ofNat (65 + i)], userId := "U".toList,
      mentionText := "hi".toList, responseText := some ("ok".toList),
      responseTweetId := some ('P' :: [Char.ofNat (65 + i)]),
      createdAt := 9000, respondedAt := some 10000, status := sCompleted })

/-- State holding the thirty completed rows. -/
def c7Db : DbState := { interactions := c7Rows, users := [] }

/-- A high-value candidate mention arriving while the cap is exhausted. -/
def c7Mention : Mention :=
  { id := "T9".toList, text := "please pray for me, I am struggling".toList,
    authorId := "A9".toList, createdAt := 10000 }

/-- Query outcomes where the cooldown and hourly-cap reads both raise while
the duplicate check finds nothing. -/
def c10IO : EligibilityIO :=
  { dupQuery := .ok none, userQuery := .error (), hourlyQuery := .error () }

/-- The mention evaluated when the storage reads raise. -/
def c10Mention : Mention :=
  { id := "T1".toList, text := "please pray for me".toList,
    authorId := "A1".toList, createdAt := 0 }

/-- Total remote read calls performed by a trace of operations. -/
def totalRemoteReads (ops : List ReadOp) : Nat := (ops.map remoteReads).sum

/-- A verse as returned by the content-lookup collaborator. -/
def c2Verse : Verse :=
  { reference := "PSA.34.18".toList,
    text := "The Lord is close to the brokenhearted".toList,
    version := "ESV".toList }

/-! ## Helper lemmas -/

set_option maxRecDepth 10000

theorem length_rstripChars_le (cs : List Char) (s : Str) :
    (rstripChars cs s).length ≤ s.length := by
  unfold rstripChars
  calc ((s.reverse.dropWhile (· ∈ cs)).reverse).length
      = (s.reverse.dropWhile (· ∈ cs)).length := List.length_reverse _
    _ ≤ s.reverse.length := (List.dropWhile_sublist _).length_le
    _ = s.length := List.length_reverse _

theorem buildTruncated_length (cap : Nat) (l : List Str) (acc : Str)
    (h : acc.length ≤ cap) : (buildTruncated cap l acc).length ≤ cap := by
  induction l generalizing acc with
  | nil => simpa [buildTruncated] using h
  | cons s rest ih =>
    rw [buildTruncated]
    split
    · exact ih _ (by assumption)
    · exact h

theorem formatResponse_length (maxLen : Nat) (h : 3 ≤ maxLen) (s : Str) :
    (formatResponse maxLen s).length ≤ maxLen := by
  unfold formatResponse
  by_cases hlen : (stripChars quoteChars s).length > maxLen
  · simp only [hlen, if_true]
    split
    · have h1 := buildTruncated_length (maxLen - 3)
        (splitDotSpace (stripChars quoteChars s)) [] (Nat.zero_le _)
      have h2 := length_rstripChars_le ['.', ' ']
        (buildTruncated (maxLen - 3) (splitDotSpace (stripChars quoteChars s)) [])
      simp only [List.length_append]
      have : ellipsis.length = 3 := rfl
      omega
    · simp only [List.length_append]
      have h1 : ((stripChars quoteChars s).take (maxLen - 3)).length ≤ maxLen - 3 :=
        le_trans (List.length_take_le _ _) (Nat.le_refl _)
      have : ellipsis.length = 3 := rfl
      omega
  · simp only [hlen, if_false]
    omega

theorem formatResponse_trunc_ellipsis (maxLen : Nat) (s : Str)
    (h : maxLen < (stripChars quoteChars s).length) :
    ∃ t, formatResponse maxLen s = t ++ ellipsis := by
  unfold formatResponse
  simp only [gt_iff_lt, h, if_true]
  split
  · exact ⟨_, rfl⟩
  · exact ⟨_, rfl⟩

theorem aiGenerateResponseFormat_length (raw : Str) :
    (aiGenerateResponseFormat raw).length ≤ 280 := by
  unfold aiGenerateResponseFormat
  by_cases hlen : 280 < (stripChars quoteChars raw).length
  case pos =>
    simp only [hlen, if_true, List.length_append]
    have h1 : ((stripChars quoteChars raw).take 277).length ≤ 277 :=
      le_trans (List.length_take_le _ _) (Nat.le_refl _)
    have : ellipsis.length = 3 := rfl
    omega
  case neg =>
    simp only [hlen, if_false]
    omega

theorem find?_tweetId_iff (l : List InteractionRow) (tid : Str)
    (hl : l.Pairwise (fun a b => a.tweetId ≠ b.tweetId)) (P : InteractionRow → Prop) :
    (∃ r, l.find? (fun r => decide (r.tweetId = tid)) = some r ∧ P r) ↔
      ∃ r ∈ l, r.tweetId = tid ∧ P r := by
  induction l with
  | nil => simp
  | cons a l ih =>
    have ha := (List.pairwise_cons.mp hl).1
    have hl' := (List.pairwise_cons.mp hl).2
    by_cases hat : a.tweetId = tid
    · rw [List.find?_cons_of_pos _ (by simpa using hat)]
      constructor
      · rintro ⟨r, hr, hPr⟩
        obtain rfl : a = r := by injection hr
        exact ⟨a, List.mem_cons_self _ _, hat, hPr⟩
      · rintro ⟨r, hr, hrt, hPr⟩
        rcases List.mem_cons.mp hr with rfl | hr
        · exact ⟨r, rfl, hPr⟩
        · exact absurd (hat.trans hrt.symm) (ha r hr)
    · rw [List.find?_cons_of_neg _ (by simpa using hat)]
      rw [ih hl']
      constructor
      · rintro ⟨r, hr, hrt, hPr⟩
        exact ⟨r, List.mem_cons_of_mem _ hr, hrt, hPr⟩
      · rintro ⟨r, hr, hrt, hPr⟩
        rcases List.mem_cons.mp hr with rfl | hr
        · exact absurd hrt hat
        · exact ⟨r, hr, hrt, hPr⟩

/-! ## Claim theorems -/

/-- C4 (amended): for every input text and any ceiling of at least 3, the
reply formatter `_format_response` outputs at most the ceiling and appends
an ellipsis whenever it truncates; the hard guard inside
`_ai_generate_response` stays within 280.  (The scheduled-post fallback
violates the ceiling — see the counterexample.) -/
theorem c4_reply_length_ceiling (maxLen : Nat) (s : Str) (h : 3 ≤ maxLen) :
    (formatResponse maxLen s).length ≤ maxLen ∧
    (maxLen < (stripChars quoteChars s).length →
      ∃ t, formatResponse maxLen s = t ++ ellipsis) ∧
    (aiGenerateResponseFormat s).length ≤ 280 :=
  ⟨formatResponse_length maxLen h s,
   fun hl => formatResponse_trunc_ellipsis maxLen s hl,
   aiGenerateResponseFormat_length s⟩

/-- C4 witness: the reply formatter applied at ceiling 20 to a 40-character
two-sentence text obeys the ceiling and, having truncated, ends in an
ellipsis. -/
theorem c4_reply_length_ceiling_witness :
    (formatResponse 20 ("Hello there. This is a long response. Bye.".toList)).length ≤ 20 ∧
    (20 < (stripChars quoteChars ("Hello there. This is a long response. Bye.".toList)).length →
      ∃ t, formatResponse 20 ("Hello there. This is a long response. Bye.".toList) = t ++ ellipsis) ∧
    (aiGenerateResponseFormat ("Hello there. This is a long response. Bye.".toList)).length ≤ 280 :=
  c4_reply_length_ceiling 20 ("Hello there. This is a long response. Bye.".toList) (by decide)

/-- C4 counterexample: the verse-truncation fallback of
`_format_verse_only_tweet` budgets for one quote character but emits two, so
with a 262-character verse, reference `John 3:16` and version `ESV` the
output is 281 characters — the 280 ceiling is exceeded (and the output does
not end in an ellipsis, the ellipsis lands mid-string). -/
theorem c4_scheduled_post_over_ceiling :
    (formatVerseOnlyTweet c4Reference c4Text c4Version).length = 281 ∧
    ¬((formatVerseOnlyTweet c4Reference c4Text c4Version).length ≤ 280) := by
  constructor
  · decide
  · decide

/-- C1 (amended): over a ledger whose rows have distinct `tweet_id` keys (the
column is UNIQUE), the duplicate check `_has_responded_to_tweet` returns true
iff a row exists for the (stripped) id whose `response_tweet_id` is non-null
and non-empty — not "non-null outcome text OR status completed" — and any id
it reports handled is excluded by the eligibility check, so a row completed
with a posted reply id suppresses re-selection. -/
theorem c1_duplicate_check_characterization (db : DbState) (tid : Str)
    (hl : db.interactions.Pairwise (fun a b => a.tweetId ≠ b.tweetId)) :
    (hasRespondedToTweet db tid = true ↔
      ∃ r ∈ db.interactions, r.tweetId = stripWs tid ∧
        ∃ rid, r.responseTweetId = some rid ∧ stripWs rid ≠ []) ∧
    ∀ bot now m, hasRespondedToTweet db m.id = true →
      shouldRespondToMention bot db now m = false := by
  constructor
  · rw [← find?_tweetId_iff db.interactions (stripWs tid) hl
      (fun r => ∃ rid, r.responseTweetId = some rid ∧ stripWs rid ≠ [])]
    unfold hasRespondedToTweet
    cases hfind : db.interactions.find? (fun r => decide (r.tweetId = stripWs tid)) with
    | none => simp [hfind]
    | some r =>
      cases hrid : r.responseTweetId with
      | none => simp [hfind, hrid]
      | some rid => simp [hfind, hrid]
  · intro bot now m h
    by_cases h1 : m.authorId = bot
    · simp [shouldRespondToMention, h1]
    · simp [shouldRespondToMention, h1, h]

/-- C1 counterexample: a ledger holding one row for `"T1"` with
`status='completed'` and `response_text='NO_REPLY'` but a null
`response_tweet_id` — the spec predicate calls it handled, the code's
duplicate check does not, so the claimed iff fails; consequently a
cycle over a batch containing `"T1"` replies to it again rather than
producing no selection. -/
theorem c1_duplicate_check_counterexample :
    hasRespondedToTweet c1Db ("T1".toList) = false ∧
    specHasHandled c1Db ("T1".toList) = true ∧
    (processMentions 180 c2Collab ("B".toList) c1Db 10000
      [{ id := "T1".toList, text := "hi again".toList, authorId := "A3".toList,
         createdAt := 9 }]).repliesPosted = 1 := by
  refine ⟨by decide, by decide, by decide⟩

/-- C1 witness: with a ledger holding one completed row for `"T2"` carrying
posted reply id `"R9"`, the characterization shows a fresh mention of `"T2"`
is excluded from eligibility. -/
theorem c1_duplicate_check_witness :
    shouldRespondToMention ("B".toList) c1DbReplied 10000 c1MentionT2 = false :=
  (c1_duplicate_check_characterization c1DbReplied ("T2".toList)
    (by simp [c1DbReplied])).2 ("B".toList) 10000 c1MentionT2 (by decide)

/-- C2 (amended): the keyword-search pipeline acts on at most one item —
`_search_and_respond_to_prayers` posts zero or one reply per cycle, and any
selection it makes is an item of the batch carrying the composed response.
(The mentions cycle has no such cap: it replies to every eligible
unprocessed mention — see the counterexample.) -/
theorem c2_search_cycle_at_most_one (db : DbState) (now : Int)
    (tweets : List Mention) (aiChoice aiMood : Option Str) (verse : Option Verse)
    (responseText : Str) (replyId : Option Str) (dryRun : Bool) :
    (searchAndRespondToPrayers db now tweets aiChoice aiMood verse responseText
        replyId dryRun).1 ≤ 1 ∧
    ∀ t mood v rtxt,
      selectAndRespondToTweet tweets aiChoice aiMood verse responseText =
          some (t, mood, v, rtxt) →
        t ∈ tweets ∧ rtxt = responseText := by
  constructor
  · unfold searchAndRespondToPrayers
    repeat' split
    all_goals simp
  · intro t mood v rtxt h
    have hmem : ∀ t0, aiSelectBestTweet tweets aiChoice = some t0 → t0 ∈ tweets := by
      intro t0 h0
      unfold aiSelectBestTweet at h0
      cases aiChoice with
      | none => exact absurd h0 (by simp)
      | some tid => exact List.mem_of_find?_eq_some h0
    unfold selectAndRespondToTweet at h
    split at h
    · exact absurd h (by simp)
    · cases hsel : aiSelectBestTweet tweets aiChoice with
      | none => rw [hsel] at h; exact absurd h (by simp)
      | some t' =>
        rw [hsel] at h
        cases hv : verse with
        | none => rw [hv] at h; exact absurd h (by simp)
        | some v' =>
          rw [hv] at h
          dsimp only at h
          split at h
          · exact absurd h (by simp)
          · have h' := Option.some.inj h
            have ht : t' = t := congrArg (fun x => x.1) h'
            have hr : responseText = rtxt := congrArg (fun x => x.2.2.2) h'
            exact ⟨ht ▸ hmem t' hsel, hr.symm⟩

/-- C2 counterexample: the mentions cycle has no at-most-one cap — with an
empty ledger and two eligible mentions from distinct authors in one fetched
batch, `process_mentions` posts two replies in a single cycle. -/
theorem c2_mentions_cycle_two_replies :
    (processMentions 180 c2Collab ("B".toList) ⟨[], []⟩ 10000
      [c2M1, c2M2]).repliesPosted = 2 := by
  decide

/-- C2 witness: the keyword-search guarantee applied to a singleton batch
whose selection succeeds — the selected item is the batch item and the
response text is passed through. -/
theorem c2_search_cycle_at_most_one_witness :
    c2M1 ∈ [c2M1] ∧ ("Be blessed".toList : Str) = ("Be blessed".toList : Str) :=
  (c2_search_cycle_at_most_one ⟨[], []⟩ 10000 [c2M1] (some ("T1".toList))
      (some sSad) (some c2Verse) ("Be blessed".toList) (some ("R1".toList)) false).2
    c2M1 sSad c2Verse ("Be blessed".toList) (by decide)



theorem storeInteraction_exists (db : DbState) (now : Int) (m : Mention) :
    ∃ r ∈ (storeInteraction db now m).interactions, r.tweetId = stripWs m.id := by
  unfold storeInteraction
  by_cases h : db.interactions.any (fun r => decide (r.tweetId = stripWs m.id))
  · simp only [h, if_true]
    obtain ⟨r, hr, hrt⟩ := List.any_eq_true.mp h
    have hrt' : r.tweetId = stripWs m.id := of_decide_eq_true hrt
    exact ⟨_, List.mem_map_of_mem _ hr, by simp [hrt']⟩
  · simp only [h, if_false]
    exact ⟨_, List.mem_append_right _ (List.mem_singleton.mpr rfl), rfl⟩

theorem updateInteractionResponse_noReply (db : DbState) (now : Int) (mid : Str)
    (hex : ∃ r ∈ db.interactions, r.tweetId = stripWs mid) :
    recordedNoReplyOutcome (updateInteractionResponse db now mid noReplyStr none)
      now mid = true := by
  obtain ⟨r0, hr0, hrt0⟩ := hex
  unfold recordedNoReplyOutcome updateInteractionResponse
  rw [Bool.and_eq_true]
  constructor
  · rw [Bool.not_eq_true', List.isEmpty_eq_false_iff_exists_mem]
    refine ⟨if r0.tweetId = stripWs mid then
        { r0 with responseText := some noReplyStr, responseTweetId := none,
                  respondedAt := some now, status := sCompleted }
      else r0, List.mem_filter.mpr ⟨List.mem_map_of_mem _ hr0, ?_⟩⟩
    simp [hrt0]
  · rw [List.all_eq_true]
    intro x hx
    obtain ⟨hxm, hxp⟩ := List.mem_filter.mp hx
    obtain ⟨r1, _, rfl⟩ := List.mem_map.mp hxm
    by_cases h1 : r1.tweetId = stripWs mid
    · simp [h1]
    · exfalso
      rw [if_neg h1] at hxp
      exact h1 (of_decide_eq_true hxp)

/-- C3: whenever the text-generation collaborator returns the decline
sentinel `NO_REPLY` for a mention (and the ceiling is at least the
sentinel's 8 characters, as every configured ceiling is), the processing
step posts no reply, reports success, and records the mention's ledger row
as `completed` with outcome text `NO_REPLY` and a null reply id. -/
theorem c3_no_reply_passthrough (maxLen : Nat) (collab : Collab) (db : DbState)
    (now : Int) (m : Mention) (hml : 8 ≤ maxLen)
    (hg : collab.generate m = noReplyStr) :
    (processSingleMention maxLen collab db now m).1 = true ∧
    (processSingleMention maxLen collab db now m).2.2 = none ∧
    recordedNoReplyOutcome (processSingleMention maxLen collab db now m).2.1
      now m.id = true := by
  have hfr : formatResponse maxLen (collab.generate m) = noReplyStr := by
    rw [hg]
    unfold formatResponse
    have h1 : stripChars quoteChars noReplyStr = noReplyStr := by decide
    rw [h1]
    have h2 : ¬(noReplyStr.length > maxLen) := by
      have : noReplyStr.length = 8 := by decide
      omega
    rw [if_neg h2]
  have hproc : processSingleMention maxLen collab db now m =
      (true, updateInteractionResponse (storeInteraction db now m) now m.id
        noReplyStr none, none) := by
    unfold processSingleMention
    rw [hfr]
    have hne : ¬(noReplyStr = ([] : Str)) := by decide
    rw [if_neg hne]
    have hup : toUpperStr (stripWs noReplyStr) = noReplyStr := by decide
    rw [if_pos hup]
  rw [hproc]
  exact ⟨rfl, rfl,
    updateInteractionResponse_noReply _ now m.id (storeInteraction_exists db now m)⟩

/-- C3 witness: the NO_REPLY guarantee applied to a concrete cycle — a
declining collaborator, an empty ledger, and a benign mention. -/
theorem c3_no_reply_passthrough_witness :
    (processSingleMention 180 c3Collab ⟨[], []⟩ 10000 c2M1).1 = true ∧
    (processSingleMention 180 c3Collab ⟨[], []⟩ 10000 c2M1).2.2 = none ∧
    recordedNoReplyOutcome (processSingleMention 180 c3Collab ⟨[], []⟩ 10000 c2M1).2.1
      10000 c2M1.id = true :=
  c3_no_reply_passthrough 180 c3Collab ⟨[], []⟩ 10000 c2M1 (by decide) rfl

/-- C5: any classifier label outside the closed mood set — and any
malformed or failed classifier response (`none`) — is coerced by the
mood-mapping step to the fixed default `'sad'`, and the raw unrecognized
string is never returned. -/
theorem c5_mood_coercion (m : Str) (h : m ∉ availableMoods) :
    aiDetermineMood (some m) = sSad ∧ aiDetermineMood (some m) ≠ m ∧
    aiDetermineMood none = sSad := by
  have h1 : aiDetermineMood (some m) = sSad := by
    show (if m ∈ availableMoods then m else sSad) = sSad
    rw [if_neg h]
  refine ⟨h1, ?_, rfl⟩
  rw [h1]
  intro heq
  exact h (heq ▸ (by decide : sSad ∈ availableMoods))

/-- C5 witness: the unknown label `"happy"` is coerced to `'sad'`. -/
theorem c5_mood_coercion_witness :
    aiDetermineMood (some ("happy".toList)) = sSad ∧
    aiDetermineMood (some ("happy".toList)) ≠ "happy".toList ∧
    aiDetermineMood none = sSad :=
  c5_mood_coercion ("happy".toList) (by decide)

/-- C6 (code bug): the cooldown never fires on the code's Postgres-only
path — at the failing input (author `A1` last interacted 10 seconds ago,
cooldown 60 seconds, fresh benign mention from `A1`),
`datetime.fromisoformat` raises on the `datetime` object returned for
`last_interaction`, the helper's handler turns that into `False`, and the
eligibility check does NOT exclude the item: it returns `True`, where the
claim (and the code's evident intent — the docstring, the
`response_cooldown` constant, the rate-limited log line) says the item is
excluded. -/
theorem c6_cooldown_never_fires :
    fromisoformat (psycopgTimestamp c6User.lastInteraction) = Except.error () ∧
    isUserRateLimited c6Db 10000 ("A1".toList) = false ∧
    shouldRespondToMention ("B".toList) c6Db 10000 c2M1 = true :=
  ⟨rfl, by decide, by decide⟩

/-- C7: once the count of `completed` rows answered within the last hour
has reached `max_responses_per_hour`, the eligibility check excludes every
candidate item, high-scoring or not. -/
theorem c7_hourly_cap_excludes (bot : Str) (db : DbState) (now : Int)
    (m : Mention) (h : maxResponsesPerHour ≤ hourlyResponseCount db now) :
    shouldRespondToMention bot db now m = false := by
  have hcap : hourlyResponseLimitReached db now = true := by
    unfold hourlyResponseLimitReached
    exact decide_eq_true h
  by_cases h1 : m.authorId = bot
  · simp [shouldRespondToMention, h1]
  · by_cases h2 : hasRespondedToTweet db m.id
    · simp [shouldRespondToMention, h1, h2]
    · by_cases h3 : blockedWords.any (fun w => containsSub w (toLowerStr m.text))
      · simp [shouldRespondToMention, h1, h2, h3]
      · by_cases h4 : isUserRateLimited db now m.authorId
        · simp [shouldRespondToMention, h1, h2, h3, h4]
        · simp [shouldRespondToMention, h1, h2, h3, h4, hcap]

/-- C7 witness: with 30 completed rows answered at the current instant, a
high-scoring fresh candidate is excluded. -/
theorem c7_hourly_cap_excludes_witness :
    shouldRespondToMention ("B".toList) c7Db 10000 c7Mention = false :=
  c7_hourly_cap_excludes ("B".toList) c7Db 10000 c7Mention (by decide)

/-- C8: for every retention threshold, the purge removes exactly the
`pending` rows older than the threshold — it is a sublist of the original
ledger in which every `completed`/`failed` row and every newer pending row
survives untouched. -/
theorem c8_purge_only_stale_pending (db : DbState) (now : Int) (days : Nat) :
    List.Sublist (cleanupOldData db now days).interactions db.interactions ∧
    ∀ r ∈ db.interactions,
      (r ∈ (cleanupOldData db now days).interactions ↔
        ¬(r.createdAt < now - (days : Int) * 86400 ∧ r.status = sPending)) := by
  constructor
  · exact List.filter_sublist _
  · intro r hr
    unfold cleanupOldData
    rw [List.mem_filter]
    by_cases hs : r.status = sPending
    · simp [hr, hs]
      try omega
    · simp [hr, hs]

/-- C8 witness: the completed `NO_REPLY` row from time 0 survives a 30-day
purge run far in the future. -/
theorem c8_purge_only_stale_pending_witness :
    c1Row ∈ (cleanupOldData c1Db 100000000 30).interactions ↔
      ¬(c1Row.createdAt < 100000000 - (30 : Int) * 86400 ∧ c1Row.status = sPending) :=
  (c8_purge_only_stale_pending c1Db 100000000 30).2 c1Row (by decide)

theorem runReadOps_eq_add_sum (c : Nat) (ops : List ReadOp) :
    runReadOps c ops = c + (ops.map counterDelta).sum := by
  induction ops generalizing c with
  | nil => simp [runReadOps]
  | cons op rest ih =>
    simp only [runReadOps, List.foldl_cons, List.map_cons, List.sum_cons] at *
    rw [ih]
    unfold applyReadOp
    omega

/-- C9 (amended): within a process lifetime the read-call counter is
non-decreasing across every operation, adds exactly the per-operation
increment, is never incremented by a local database check or a snapshot,
and for every operation whose direct-HTTP request completes it increments
by exactly 1 per completed request; on raising requests it diverges both
ways — `get_mentions`/`search_tweets` add nothing (while the tweepy
fallback may still make uncounted remote reads), and `get_original_tweet`
and `get_thread_context`'s conversation search add one with zero completed
reads, because those two call sites increment before issuing the request —
and the snapshot reports `remaining = limit - made` with the percentage
computed from `made` and `limit`. -/
theorem c9_counter_invariants (c : Nat) (ops : List ReadOp) :
    c ≤ runReadOps c ops ∧
    runReadOps c ops = c + (ops.map counterDelta).sum ∧
    (∀ op, requestRaised op = false → counterDelta op = directHttpReads op) ∧
    counterDelta ReadOp.localDbCheck = 0 ∧
    counterDelta ReadOp.snapshotRead = 0 ∧
    counterDelta ReadOp.getOriginalTweetRequestRaised = 1 ∧
    directHttpReads ReadOp.getOriginalTweetRequestRaised = 0 ∧
    counterDelta ReadOp.conversationSearchRequestRaised = 1 ∧
    directHttpReads ReadOp.conversationSearchRequestRaised = 0 ∧
    (getReadCallCount (runReadOps c ops)).remaining =
      (readCallLimit : Int) - (runReadOps c ops : Int) ∧
    (getReadCallCount (runReadOps c ops)).percentageUsed =
      ((runReadOps c ops : ℚ) / (readCallLimit : ℚ)) * 100 := by
    refine ⟨?_, runReadOps_eq_add_sum c ops, ?_, rfl, rfl, rfl, rfl, rfl, rfl, rfl, rfl⟩
    · rw [runReadOps_eq_add_sum c ops]
      omega
    · intro op h
      cases op <;> first | rfl | simp [requestRaised] at h

/-- C9 witness: the guarded exactly-once conjunct applied at a concrete
trace and a concrete completed operation (`get_mentions`, status 200). -/
theorem c9_counter_invariants_witness :
    counterDelta ReadOp.getMentionsOk = directHttpReads ReadOp.getMentionsOk :=
  (c9_counter_invariants 0 [ReadOp.getMentionsOk]).2.2.1 ReadOp.getMentionsOk rfl

/-- C9 counterexample: a `get_mentions` call whose direct-HTTP request
completes with a non-200/429 status falls back to the tweepy path — the
trace makes two remote read calls but the counter increments by one, so the
counter does not increment by exactly 1 per remote read call made. -/
theorem c9_fallback_uncounted :
    runReadOps 0 [ReadOp.getMentionsHttpError 1] = 1 ∧
    totalRemoteReads [ReadOp.getMentionsHttpError 1] = 2 := by
  exact ⟨rfl, rfl⟩

/-- C10 (amended): an exception inside the cooldown, hourly-cap, or
duplicate-check helper is caught within that helper and treated as "no
row / zero count" — failing open toward replying, not closed — while an
exception in the eligibility check's own body is caught by its outer
handler and yields `False`; in every case the check returns a boolean and
no exception escapes. -/
theorem c10_internal_errors (bot : Str) (now : Int) (m : Mention)
    (io : EligibilityIO) :
    shouldRespondToMentionE bot now m { io with userQuery := .error () } =
      shouldRespondToMentionE bot now m { io with userQuery := .ok none } ∧
    shouldRespondToMentionE bot now m { io with hourlyQuery := .error () } =
      shouldRespondToMentionE bot now m { io with hourlyQuery := .ok 0 } ∧
    shouldRespondToMentionE bot now m { io with dupQuery := .error () } =
      shouldRespondToMentionE bot now m { io with dupQuery := .ok none } ∧
    shouldRespondToMentionChecked bot now m (.error ()) = false := by
  refine ⟨rfl, ?_, rfl, rfl⟩
  show shouldRespondToMentionE bot now m { io with hourlyQuery := .error () } =
    shouldRespondToMentionE bot now m { io with hourlyQuery := .ok 0 }
  unfold shouldRespondToMentionE
  have h : hourlyResponseLimitReachedE (.error ()) =
      hourlyResponseLimitReachedE (.ok 0) := by decide
  simp only [h]

/-- C10 counterexample: with the cooldown and hourly-cap reads both raising
and every other check passing, the eligibility check returns `True` — an
internal storage failure does not make the check return `False`. -/
theorem c10_storage_failure_fails_open :
    shouldRespondToMentionE ("B".toList) 10000 c10Mention c10IO = true := by
  decide

end InChristAI
